import Mathlib

/-!
Shallow embedding of the wake-sleep-stt repository core (`src/wakeSleepStt.ts`,
class `WakeSleepSTT`) and verification of its specification.

Strings are modelled as `List Char`.  The JavaScript regular expression
`\b(p1|p2|...)\b` built by the constructor is embedded for phrase lists whose
phrases are regex-literal (no metacharacters), which covers every documented
and defaulted configuration; the `i` flag is embedded by comparing both sides
through `Char.toLower`.  Confidence scores are embedded as rationals (`Rat`);
the claims under study depend only on order comparisons and zero tests, which
rationals share with IEEE doubles on the inputs involved.
-/

namespace WakeSleep

/-- The five runtime modes of the controller (`STTState` in the source). -/
inductive STTState where
  | idle
  | listening
  | transcribing
  | error
  | stopped
deriving DecidableEq, Repr

/-- Events delivered to the registered sink (`STTEvent` in the source).
State events carry the new mode and the optional machine-readable error code;
human-readable messages are not inspected by any claim and are omitted. -/
inductive STTEvent where
  | transcriptEv (transcript : List Char) (isFinal : Bool) (confidence : Option Rat)
  | stateEv (state : STTState) (error : Option String)
deriving DecidableEq, Repr

/-- Per-instance configuration (`WakeSleepSTTOptions` after constructor
defaulting).  `continuous`, `interimResults` and `language` are passed through
to the platform adapter untouched and are omitted. -/
structure Config where
  wakeWords : List (List Char)
  sleepWords : List (List Char)
  wakeConfidenceThreshold : Rat
  autoRestart : Bool
  maxRestartAttempts : Nat
deriving DecidableEq, Repr

/-- Mutable instance state of the class.  `recognition` records whether an
adapter instance is live; `restartTimeout` holds the delay of the pending
restart timer when one is scheduled; `oneShotOnline` counts live one-shot
`online` listeners registered by `handleNetworkError` (zero at construction). -/
structure SState where
  currentState : STTState
  isTranscribing : Bool
  restartAttempts : Nat
  restartTimeout : Option Rat
  recognition : Bool
  oneShotOnline : Nat
deriving DecidableEq, Repr

/-- The state of a freshly constructed instance in a supported environment
(recognition API present, non-`file:` protocol): mode `idle`, not
transcribing, zero attempts, no timer, no adapter. -/
def initialState : SState :=
  { currentState := .idle
    isTranscribing := false
    restartAttempts := 0
    restartTimeout := none
    recognition := false
    oneShotOnline := 0 }

/-- `setState(state, message?, error?)`: record the new mode and emit a state
event. -/
def setState (st : SState) (s : STTState) (error : Option String) :
    SState × STTEvent :=
  ({st with currentState := s}, .stateEv s error)

/- ## Text normalizer (`normalizeTranscript`) -/

/-- The six punctuation characters removed by `.replace(/[.,!?;:]/g, '')`. -/
def isStrippedPunct (c : Char) : Bool :=
  c == '.' || c == ',' || c == '!' || c == '?' || c == ';' || c == ':'

/-- `text.toLowerCase()` (ASCII fragment). -/
def lowerCase (s : List Char) : List Char := s.map Char.toLower

/-- `text.trim()`: drop leading and trailing whitespace. -/
def trimChars (s : List Char) : List Char :=
  ((s.dropWhile Char.isWhitespace).reverse.dropWhile Char.isWhitespace).reverse

/-- `normalizeTranscript(text)`:
`text.toLowerCase().trim().replace(/[.,!?;:]/g, '')`. -/
def normalizeTranscript (s : List Char) : List Char :=
  (trimChars (lowerCase s)).filter (fun c => !isStrippedPunct c)

/- ## Phrase matcher (`wakeRegex` / `sleepRegex`) -/

/-- JavaScript `\w`: ASCII letters, digits and underscore. -/
def isWordChar (c : Char) : Bool := c.isAlphanum || c == '_'

/-- Whether position `i` of `s` holds a word character. -/
def wordAt (s : List Char) (i : Nat) : Bool :=
  match s.get? i with
  | some c => isWordChar c
  | none => false

/-- JavaScript `\b` at position `i` (`0 ≤ i ≤ s.length`): the word-character
status changes between the preceding character and the current one. -/
def boundaryAt (s : List Char) (i : Nat) : Bool :=
  (if i = 0 then false else wordAt s (i - 1)) != wordAt s i

/-- Case-insensitive literal match of phrase `p` at position `i` of `s`
(the `i` regex flag). -/
def literalMatchAt (s p : List Char) (i : Nat) : Bool :=
  ((s.drop i).take p.length).map Char.toLower == p.map Char.toLower

/-- One alternative of `\b(...)\b` succeeding at position `i`. -/
def phraseMatchAt (s p : List Char) (i : Nat) : Bool :=
  boundaryAt s i && literalMatchAt s p i && boundaryAt s (i + p.length)

/-- The alternatives of the compiled pattern: `words.join('|')` turns the
empty phrase list into the empty pattern, i.e. the single empty alternative
`\b()\b`; a non-empty list contributes exactly its phrases. -/
def regexAlternatives (ps : List (List Char)) : List (List Char) :=
  if ps = [] then [[]] else ps

/-- `new RegExp("\\b(" + ps.join("|") + ")\\b", "i").test(s)` for
regex-literal phrases. -/
def regexTest (ps : List (List Char)) (s : List Char) : Bool :=
  (List.range (s.length + 1)).any fun i =>
    (regexAlternatives ps).any fun p => phraseMatchAt s p i

/-- `detectWakeWord(transcript)`: normalize, then test the wake pattern. -/
def detectWakeWord (cfg : Config) (t : List Char) : Bool :=
  regexTest cfg.wakeWords (normalizeTranscript t)

/-- `detectSleepWord(transcript)`: normalize, then test the sleep pattern. -/
def detectSleepWord (cfg : Config) (t : List Char) : Bool :=
  regexTest cfg.sleepWords (normalizeTranscript t)

/-- Spec-side predicate for the matcher contract (§4.2, §8 of the spec):
some phrase of the list occurs in the text as a whole word, i.e. at a
position delimited by word boundaries on both sides, compared
case-insensitively.  An empty phrase list matches nothing. -/
def occursOnWordBoundary (p s : List Char) : Prop :=
  ∃ i, i ≤ s.length ∧ boundaryAt s i = true ∧
    boundaryAt s (i + p.length) = true ∧ literalMatchAt s p i = true

/- ## Normalizer lemmas -/

theorem char_toNat_ofNat_of_lt {n : Nat} (h : n < 55296) :
    (Char.ofNat n).toNat = n := by
  have hv : n.isValidChar := Or.inl h
  simp [Char.ofNat, hv, Char.ofNatAux, Char.toNat, UInt32.toNat,
    BitVec.toNat_ofNatLt]

theorem char_toLower_toLower (c : Char) : c.toLower.toLower = c.toLower := by
  unfold Char.toLower
  by_cases h : c.toNat ≥ 65 ∧ c.toNat ≤ 90
  · rw [if_pos h]
    have h1 : (Char.ofNat (c.toNat + 32)).toNat = c.toNat + 32 :=
      char_toNat_ofNat_of_lt (by omega)
    rw [h1, if_neg (by omega)]
  · rw [if_neg h, if_neg h]

theorem mem_of_mem_dropWhile {p : Char → Bool} {c : Char} :
    ∀ {l : List Char}, c ∈ l.dropWhile p → c ∈ l := by
  intro l
  induction l with
  | nil => simp [List.dropWhile]
  | cons a t ih =>
    intro h
    rw [List.dropWhile] at h
    by_cases hp : p a
    · simp only [hp] at h
      exact List.mem_cons_of_mem a (ih h)
    · simp only [hp] at h
      simpa using h

theorem mem_of_mem_trimChars {c : Char} {l : List Char}
    (h : c ∈ trimChars l) : c ∈ l := by
  unfold trimChars at h
  rw [List.mem_reverse] at h
  have h1 := mem_of_mem_dropWhile h
  rw [List.mem_reverse] at h1
  exact mem_of_mem_dropWhile h1

theorem map_eq_self_of_mem {f : Char → Char} :
    ∀ {l : List Char}, (∀ c ∈ l, f c = c) → l.map f = l := by
  intro l
  induction l with
  | nil => simp
  | cons a t ih =>
    intro h
    simp only [List.map_cons, List.cons.injEq]
    exact ⟨h a (List.mem_cons_self a t), ih fun c hc => h c (List.mem_cons_of_mem a hc)⟩

theorem mem_normalizeTranscript {c : Char} {t : List Char}
    (h : c ∈ normalizeTranscript t) : c ∈ lowerCase t ∧ isStrippedPunct c = false := by
  unfold normalizeTranscript at h
  rw [List.mem_filter] at h
  exact ⟨mem_of_mem_trimChars h.1, by simpa using h.2⟩

theorem lowerCase_normalizeTranscript (t : List Char) :
    lowerCase (normalizeTranscript t) = normalizeTranscript t := by
  apply map_eq_self_of_mem
  intro c hc
  have h1 := (mem_normalizeTranscript hc).1
  unfold lowerCase at h1
  rw [List.mem_map] at h1
  obtain ⟨a, _, ha⟩ := h1
  rw [← ha]
  exact char_toLower_toLower a

theorem filter_normalizeTranscript (t : List Char) :
    (trimChars (normalizeTranscript t)).filter (fun c => !isStrippedPunct c) =
      trimChars (normalizeTranscript t) := by
  rw [List.filter_eq_self]
  intro c hc
  have h2 := (mem_normalizeTranscript (mem_of_mem_trimChars hc)).2
  simp [h2]

/- ## Claim theorems: normalizer and matcher -/

/-- Claim C9, counterexample: `normalizeTranscript` is not idempotent.  On
the input `", hi"` the first pass trims nothing (the string starts with a
comma, not whitespace) and then strips the comma, exposing a leading space;
the second pass trims that space away. -/
theorem c9_counterexample :
    normalizeTranscript ", hi".data = [' ', 'h', 'i'] ∧
    normalizeTranscript (normalizeTranscript ", hi".data) = ['h', 'i'] ∧
    normalizeTranscript (normalizeTranscript ", hi".data) ≠
      normalizeTranscript ", hi".data := by decide

/-- Claim C9 (amended): `normalizeTranscript` lower-cases, trims, strips the
six punctuation characters, and is total (empty input maps to the empty
string), but it is only idempotent up to a final trim: a second application
equals a single trim of the first — stripping punctuation after trimming can
expose new leading or trailing whitespace, which only the second pass
removes. -/
theorem c9_normalize_idempotent_up_to_trim (t : List Char) :
    normalizeTranscript (normalizeTranscript t) =
      trimChars (normalizeTranscript t) ∧
    normalizeTranscript [] = [] := by
  constructor
  · conv_lhs => rw [normalizeTranscript, lowerCase_normalizeTranscript]
    rw [filter_normalizeTranscript]
  · rfl

/- ## Matcher lemmas -/

theorem regexTest_eq_true_iff (ps : List (List Char)) (s : List Char) :
    regexTest ps s = true ↔
      ∃ p ∈ regexAlternatives ps, ∃ i < s.length + 1, phraseMatchAt s p i = true := by
  unfold regexTest
  simp only [List.any_eq_true, List.mem_range]
  constructor
  · rintro ⟨i, hi, p, hp, hm⟩
    exact ⟨p, hp, i, hi, hm⟩
  · rintro ⟨p, hp, i, hi, hm⟩
    exact ⟨i, hi, p, hp, hm⟩

theorem occursOnWordBoundary_iff (p s : List Char) :
    occursOnWordBoundary p s ↔ ∃ i < s.length + 1, phraseMatchAt s p i = true := by
  unfold occursOnWordBoundary phraseMatchAt
  constructor
  · rintro ⟨i, hi, h1, h2, h3⟩
    exact ⟨i, by omega, by simp [h1, h2, h3]⟩
  · rintro ⟨i, hi, h⟩
    simp only [Bool.and_eq_true] at h
    exact ⟨i, by omega, h.1.1, h.2, h.1.2⟩

/-- Claim C1, counterexample: with an empty phrase list the constructor
builds the pattern `\b()\b` (the `join` of no phrases is the empty
alternative), which matches any text containing a word boundary.  The claim
says an empty phrase list never matches, and indeed no phrase of the empty
list occurs in `"hello"`, yet the compiled matcher accepts it. -/
theorem c1_counterexample :
    regexTest [] (normalizeTranscript "hello".data) = true ∧
    ¬ ∃ p, p ∈ ([] : List (List Char)) ∧
        occursOnWordBoundary p (normalizeTranscript "hello".data) := by
  refine ⟨by decide, ?_⟩
  rintro ⟨p, hp, -⟩
  exact (List.not_mem_nil p) hp

/-- Claim C1 (amended): for every NON-EMPTY phrase list the compiled matcher
accepts a raw text exactly when some phrase of the list occurs in the
normalized text delimited by word boundaries on both sides (never as a
substring of a longer token); empty normalized text never matches.  For an
empty phrase list the compiled pattern degenerates to `\b()\b` and matches
any text containing a word boundary, so the claim's empty-list clause fails. -/
theorem c1_matcher_boundary_correct (ps : List (List Char)) (t : List Char)
    (h : ps ≠ []) :
    (regexTest ps (normalizeTranscript t) = true ↔
      ∃ p ∈ ps, occursOnWordBoundary p (normalizeTranscript t)) ∧
    regexTest ps [] = false := by
  constructor
  · rw [regexTest_eq_true_iff]
    unfold regexAlternatives
    rw [if_neg h]
    constructor
    · rintro ⟨p, hp, hex⟩
      exact ⟨p, hp, (occursOnWordBoundary_iff p _).2 hex⟩
    · rintro ⟨p, hp, hocc⟩
      exact ⟨p, hp, (occursOnWordBoundary_iff p _).1 hocc⟩
  · unfold regexTest
    apply List.any_eq_false.2
    intro i _
    rw [Bool.not_eq_true]
    apply List.any_eq_false.2
    intro p _
    unfold phraseMatchAt boundaryAt wordAt
    simp [List.get?]

/-- Witness for C1 at concrete inputs: with the phrase list `["hi"]` the raw
text `"oh hi!"` matches (the phrase occurs whole-word in `"oh hi"`). -/
theorem c1_witness :
    (regexTest [['h', 'i']] (normalizeTranscript "oh hi!".data) = true ↔
      ∃ p ∈ [['h', 'i']], occursOnWordBoundary p (normalizeTranscript "oh hi!".data)) ∧
    regexTest [['h', 'i']] [] = false :=
  c1_matcher_boundary_correct [['h', 'i']] "oh hi!".data (by decide)

/- ## Mode controller -/

/-- `enableTranscriptionMode()`: guarded only by the transcription sub-state,
not by the current mode. -/
def enableTranscriptionMode (st : SState) : SState × List STTEvent :=
  if st.isTranscribing then (st, [])
  else ({st with isTranscribing := true, currentState := .transcribing},
    [.stateEv .transcribing none])

/-- `disableTranscriptionMode()`. -/
def disableTranscriptionMode (st : SState) : SState × List STTEvent :=
  if st.isTranscribing then
    ({st with isTranscribing := false, currentState := .listening},
      [.stateEv .listening none])
  else (st, [])

/-- One recognition hypothesis as delivered to `onresult`
(`result[0].transcript`, `result.isFinal`, `result[0].confidence`). -/
structure ResultEvent where
  transcript : List Char
  isFinal : Bool
  confidence : Option Rat
deriving DecidableEq, Repr

/-- The guard `confidence && confidence < this.wakeConfidenceThreshold` of
`onresult`.  JavaScript truthiness makes an absent confidence and a
confidence of exactly `0` falsy, so neither can trigger the discard. -/
def confidenceGate (cfg : Config) (confidence : Option Rat) : Bool :=
  match confidence with
  | none => false
  | some c => decide (c ≠ 0) && decide (c < cfg.wakeConfidenceThreshold)

/-- The `onresult` handler for a result whose hypothesis list is non-empty:
discard on the confidence gate; otherwise emit the transcript event and run
the wake check and then the sleep check, each a separate `if` reading the
(possibly just-updated) transcription sub-state. -/
def onresult (cfg : Config) (st : SState) (r : ResultEvent) :
    SState × List STTEvent :=
  if confidenceGate cfg r.confidence then (st, [])
  else
    let tEv := STTEvent.transcriptEv r.transcript r.isFinal r.confidence
    let w := if !st.isTranscribing && detectWakeWord cfg r.transcript then
        enableTranscriptionMode st
      else (st, [])
    let z := if w.1.isTranscribing && detectSleepWord cfg r.transcript then
        disableTranscriptionMode w.1
      else (w.1, [])
    (z.1, tEv :: (w.2 ++ z.2))

/- ## Reconnection scheduler -/

/-- Nominal backoff delay for (1-indexed) attempt `k` plus jitter:
`min(2000 * 1.5^(k-1), 15000) + jitter`. -/
def backoffDelay (k : Nat) (jitter : Rat) : Rat :=
  min (2000 * (mkRat 3 2) ^ (k - 1)) 15000 + jitter

/-- `handleNetworkError()`, taken atomically with the environment's
`navigator.onLine` sampled once (`onLine`): the two reads of
`navigator.onLine` in the source happen in the same synchronous turn after
the internal 1s pause, so they agree, and the `isOffline` branch that would
register a one-shot `online` listener is unreachable; it is embedded
faithfully below with `isOffline = !onLine`. -/
def handleNetworkError (cfg : Config) (st : SState) (onLine : Bool)
    (jitter : Rat) : SState × List STTEvent :=
  if st.currentState = .error then (st, [])
  else if onLine = false then
    ({st with currentState := .error},
      [.stateEv .error (some "network-connecting"),
       .stateEv .error (some "network-offline")])
  else if cfg.autoRestart = true ∧ st.restartAttempts < cfg.maxRestartAttempts then
    if (!onLine) = true then
      ({st with
          recognition := false
          restartAttempts := st.restartAttempts + 1
          currentState := .error
          restartTimeout := none
          oneShotOnline := st.oneShotOnline + 1},
        [.stateEv .error (some "network-connecting"), .stateEv .error none])
    else
      ({st with
          recognition := false
          restartAttempts := st.restartAttempts + 1
          currentState := .error
          restartTimeout := some (backoffDelay (st.restartAttempts + 1) jitter)},
        [.stateEv .error (some "network-connecting"), .stateEv .error none])
  else
    ({st with recognition := false, currentState := .error},
      [.stateEv .error (some "network-connecting"),
       .stateEv .error (some "network")])

/-- `scheduleRestart()`: refuse and settle into `Error("max-attempts-reached")`
at the attempt cap; otherwise consume an attempt, emit a retrying state
notice, cancel any previous timer and schedule a new one. -/
def scheduleRestart (cfg : Config) (st : SState) (jitter : Rat) :
    SState × List STTEvent :=
  if cfg.maxRestartAttempts ≤ st.restartAttempts then
    ({st with currentState := .error},
      [.stateEv .error (some "max-attempts-reached")])
  else
    ({st with
        restartAttempts := st.restartAttempts + 1
        currentState := .error
        restartTimeout := some (backoffDelay (st.restartAttempts + 1) jitter)},
      [.stateEv .error none])

/- ## Public operations and adapter callbacks -/

/-- Whether a promise-returning operation resolved or rejected. -/
inductive Outcome where
  | resolved
  | rejected
deriving DecidableEq, Repr

/-- The external environment sampled during one operation. -/
structure Env where
  onLine : Bool
  micGranted : Bool
  apiAvailable : Bool
  adapterStartThrows : Bool
deriving DecidableEq, Repr

/-- `startListening()`, control flow flattened: early return when already
listening or transcribing; offline and microphone-denied failures set
`Error` and RESOLVE (plain `return`); a failing `initRecognition()` emits an
`Error` state event with no code and rethrows (REJECTS); a throwing
`recognition.start()` sets `Error("permission-denied")` and rethrows. -/
def startListening (cfg : Config) (st : SState) (env : Env) :
    SState × List STTEvent × Outcome :=
  if st.currentState = .listening ∨ st.currentState = .transcribing then
    (st, [], .resolved)
  else if env.onLine = false then
    ({st with currentState := .error},
      [.stateEv .error (some "offline")], .resolved)
  else if env.micGranted = false then
    ({st with currentState := .error},
      [.stateEv .error (some "microphone-denied")], .resolved)
  else if st.recognition = false ∧ env.apiAvailable = false then
    ({st with currentState := .error}, [.stateEv .error none], .rejected)
  else if env.adapterStartThrows = true then
    ({st with recognition := true, currentState := .error},
      [.stateEv .error (some "permission-denied")], .rejected)
  else
    ({st with recognition := true, currentState := .listening},
      [.stateEv .listening none], .resolved)

/-- `stopListening()`: cancel the pending timer, transition to `Stopped`,
tear down the adapter (a throwing `recognition.stop()` is caught and only
logged — `stopThrows` has no effect on the result), clear the transcription
sub-state and reset the attempt counter. -/
def stopListening (st : SState) (stopThrows : Bool) : SState × List STTEvent :=
  ({st with
      restartTimeout := none
      currentState := .stopped
      recognition := false
      isTranscribing := false
      restartAttempts := 0},
    [.stateEv .stopped none])

/-- The adapter `onstart` callback: reset the attempt counter and enter
`Listening`. -/
def onstartHandler (st : SState) : SState × List STTEvent :=
  ({st with restartAttempts := 0, currentState := .listening},
    [.stateEv .listening none])

/-- The adapter `onend` callback: schedule a restart unless stopped or
auto-restart is off. -/
def onendHandler (cfg : Config) (st : SState) (jitter : Rat) :
    SState × List STTEvent :=
  if st.currentState ≠ .stopped ∧ cfg.autoRestart = true then
    scheduleRestart cfg st jitter
  else (st, [])

/-- The adapter `onerror` callback: dispatch on the error code; unrecognized
codes fall through to the network path. -/
def onerrorHandler (cfg : Config) (st : SState) (code : String)
    (onLine : Bool) (jitter : Rat) : SState × List STTEvent :=
  if code = "network" then handleNetworkError cfg st onLine jitter
  else if code = "not-allowed" ∨ code = "permission-denied" then
    ({st with currentState := .error},
      [.stateEv .error (some "permission-denied")])
  else if code = "service-not-allowed" then
    ({st with currentState := .error},
      [.stateEv .error (some "service-not-allowed")])
  else handleNetworkError cfg st onLine jitter

/-- The persistent window `online` listener installed by the constructor
(`setupNetworkListeners`): restart whenever auto-restart is on and the
instance is not stopped (a rejected `startListening` is only logged). -/
def onlineHandler (cfg : Config) (st : SState) (env : Env) :
    SState × List STTEvent :=
  if cfg.autoRestart = true ∧ st.currentState ≠ .stopped then
    ((startListening cfg st env).1, (startListening cfg st env).2.1)
  else (st, [])

/-- The persistent window `offline` listener installed by the constructor:
set `Error("offline")` and stop. -/
def offlineHandler (st : SState) : SState × List STTEvent :=
  ((stopListening {st with currentState := .error} false).1,
    .stateEv .error (some "offline") ::
      (stopListening {st with currentState := .error} false).2)

/-- The timer callback scheduled by `scheduleRestart`: a fired timer is no
longer pending; a stale fire after `stopListening` is a no-op; otherwise
lazily (re)create the adapter and start it, retrying or settling into
`Error("restart-failed")` on a throw. -/
def scheduledRestartTimerFired (cfg : Config) (st : SState) (env : Env)
    (jitter : Rat) : SState × List STTEvent :=
  if st.currentState = .stopped then ({st with restartTimeout := none}, [])
  else if st.recognition = false ∧ env.apiAvailable = false then
    if cfg.autoRestart = true then
      ((scheduleRestart cfg
          {st with restartTimeout := none, currentState := .error} jitter).1,
        .stateEv .error none ::
          (scheduleRestart cfg
            {st with restartTimeout := none, currentState := .error} jitter).2)
    else
      ({st with restartTimeout := none, currentState := .error},
        [.stateEv .error none, .stateEv .error (some "restart-failed")])
  else if env.adapterStartThrows = true then
    if cfg.autoRestart = true then
      scheduleRestart cfg {st with restartTimeout := none, recognition := true} jitter
    else
      ({st with
          restartTimeout := none
          recognition := true
          currentState := .error},
        [.stateEv .error (some "restart-failed")])
  else ({st with restartTimeout := none, recognition := true}, [])

/-- The timer callback scheduled by `handleNetworkError`: stale fire after
stop is a no-op; if the network dropped while waiting, re-enter
`handleNetworkError`; otherwise call `startListening`, re-entering
`handleNetworkError` if it rejects and auto-restart is on. -/
def networkRestartTimerFired (cfg : Config) (st : SState) (env : Env)
    (jitter : Rat) : SState × List STTEvent :=
  if st.currentState = .stopped then ({st with restartTimeout := none}, [])
  else if env.onLine = false then
    handleNetworkError cfg {st with restartTimeout := none} env.onLine jitter
  else
    match startListening cfg {st with restartTimeout := none} env with
    | (st1, evs1, .resolved) => (st1, evs1)
    | (st1, evs1, .rejected) =>
      if cfg.autoRestart = true then
        ((handleNetworkError cfg st1 env.onLine jitter).1,
          evs1 ++ (handleNetworkError cfg st1 env.onLine jitter).2)
      else (st1, evs1)

/-- Every externally triggered operation of one instance. -/
inductive Action where
  | result (r : ResultEvent)
  | errorEv (code : String) (onLine : Bool) (jitter : Rat)
  | endEv (jitter : Rat)
  | started
  | callStart (env : Env)
  | callStop (stopThrows : Bool)
  | onlineSignal (env : Env)
  | offlineSignal
  | schedTimer (env : Env) (jitter : Rat)
  | netTimer (env : Env) (jitter : Rat)
  | enablePublic
  | disablePublic

/-- One event-loop turn of the instance: dispatch an action to its handler. -/
def step (cfg : Config) (st : SState) (a : Action) : SState × List STTEvent :=
  match a with
  | .result r => onresult cfg st r
  | .errorEv code onLine jitter => onerrorHandler cfg st code onLine jitter
  | .endEv jitter => onendHandler cfg st jitter
  | .started => onstartHandler st
  | .callStart env => ((startListening cfg st env).1, (startListening cfg st env).2.1)
  | .callStop stopThrows => stopListening st stopThrows
  | .onlineSignal env => onlineHandler cfg st env
  | .offlineSignal => offlineHandler st
  | .schedTimer env jitter => scheduledRestartTimerFired cfg st env jitter
  | .netTimer env jitter => networkRestartTimerFired cfg st env jitter
  | .enablePublic => enableTranscriptionMode st
  | .disablePublic => disableTranscriptionMode st

/- ## Concrete fixtures -/

/-- A configuration with wake word `"hi"`, sleep word `"bye"` and confidence
threshold `1/2`. -/
def cfgA : Config :=
  { wakeWords := [['h', 'i']]
    sleepWords := [['b', 'y', 'e']]
    wakeConfidenceThreshold := mkRat 1 2
    autoRestart := true
    maxRestartAttempts := 5 }

/-- An instance in `Listening` with a live adapter and no pending work. -/
def stListening : SState :=
  { currentState := .listening
    isTranscribing := false
    restartAttempts := 0
    restartTimeout := none
    recognition := true
    oneShotOnline := 0 }

/-- Number of transcript events in an event list. -/
def countTranscriptEvents (evs : List STTEvent) : Nat :=
  evs.countP fun e =>
    match e with
    | .transcriptEv _ _ _ => true
    | .stateEv _ _ => false

/- ## Claim theorems: onresult -/

/-- Claim C2, counterexample: a delivered confidence of exactly `0` is
present and strictly below the threshold `1/2`, so the claim says the result
is discarded with no event; but `0` is falsy in the guard
`confidence && confidence < threshold`, so the code emits a transcript event
for it. -/
theorem c2_counterexample :
    (0 : Rat) < cfgA.wakeConfidenceThreshold ∧
    (onresult cfgA stListening ⟨"ok".data, true, some 0⟩).2 =
      [STTEvent.transcriptEv "ok".data true (some 0)] := by decide

/-- Claim C2 (amended): a result is discarded entirely (no event, no
matching, no state change) exactly when a confidence is present, NONZERO and
strictly below the threshold; otherwise — including a present confidence of
exactly `0`, which is falsy in the guard — exactly one transcript event is
emitted for the result, final or interim alike, regardless of the current
mode. -/
theorem c2_confidence_gate (cfg : Config) (st : SState) (r : ResultEvent) :
    ((match r.confidence with
      | some c => c ≠ 0 ∧ c < cfg.wakeConfidenceThreshold
      | none => False) →
      onresult cfg st r = (st, [])) ∧
    ((match r.confidence with
      | some c => c = 0 ∨ cfg.wakeConfidenceThreshold ≤ c
      | none => True) →
      countTranscriptEvents (onresult cfg st r).2 = 1) := by
  constructor
  · intro h
    have hg : confidenceGate cfg r.confidence = true := by
      unfold confidenceGate
      match hr : r.confidence with
      | none => rw [hr] at h; exact absurd h not_false
      | some c =>
        rw [hr] at h
        simp [h.1, h.2]
    unfold onresult
    rw [hg]
    simp
  · intro h
    have hg : confidenceGate cfg r.confidence = false := by
      unfold confidenceGate
      match hr : r.confidence with
      | none => rfl
      | some c =>
        rw [hr] at h
        rcases h with h | h
        · simp [h]
        · simp [not_lt_of_le h]
    unfold onresult
    rw [hg]
    simp only [Bool.false_eq_true, if_false]
    rcases hs0 : st.isTranscribing with _ | _ <;>
      rcases hw : detectWakeWord cfg r.transcript with _ | _ <;>
        rcases hsl : detectSleepWord cfg r.transcript with _ | _ <;>
          simp [enableTranscriptionMode, disableTranscriptionMode, hs0, hw, hsl,
            countTranscriptEvents, List.countP, List.countP.go]

/-- Witness for C2 at a concrete input: a final result with confidence `1`
(at or above the threshold `1/2`) yields exactly one transcript event. -/
theorem c2_witness :
    countTranscriptEvents
      (onresult cfgA stListening ⟨"ok".data, true, some 1⟩).2 = 1 :=
  (c2_confidence_gate cfgA stListening ⟨"ok".data, true, some 1⟩).2 (by decide)

/-- Claim C3, counterexample: the wake and sleep checks are two consecutive
independent `if`s, and the sleep check reads the sub-state the wake check
just wrote.  With wake word `"hi"`, sleep word `"bye"` and the single result
`"hi bye"` while `Listening`, one invocation emits BOTH the transition to
`Transcribing` and the transition back to `Listening`. -/
theorem c3_counterexample :
    (onresult cfgA stListening ⟨"hi bye".data, true, none⟩).2 =
      [STTEvent.transcriptEv "hi bye".data true none,
       STTEvent.stateEv .transcribing none,
       STTEvent.stateEv .listening none] ∧
    (onresult cfgA stListening ⟨"hi bye".data, true, none⟩).1.isTranscribing
      = false := by decide

/-- Claim C3 (amended): the wake and sleep checks of one `onresult`
invocation are sequential, not mutually exclusive: whenever the instance is
not transcribing and the (non-discarded) result matches both a wake and a
sleep phrase, the invocation performs the wake transition and then
immediately the sleep transition, ending back where it started. -/
theorem c3_wake_then_sleep (cfg : Config) (st : SState) (r : ResultEvent)
    (hg : confidenceGate cfg r.confidence = false)
    (ht : st.isTranscribing = false)
    (hw : detectWakeWord cfg r.transcript = true)
    (hs : detectSleepWord cfg r.transcript = true) :
    (onresult cfg st r).2 =
      [STTEvent.transcriptEv r.transcript r.isFinal r.confidence,
       STTEvent.stateEv .transcribing none,
       STTEvent.stateEv .listening none] ∧
    (onresult cfg st r).1 =
      {st with isTranscribing := false, currentState := .listening} := by
  unfold onresult
  rw [hg]
  simp [ht, hw, hs, enableTranscriptionMode, disableTranscriptionMode]

/-- Witness for C3 at the concrete input of the counterexample. -/
theorem c3_witness :
    (onresult cfgA stListening ⟨"hi bye".data, true, none⟩).1 =
      {stListening with isTranscribing := false, currentState := .listening} :=
  (c3_wake_then_sleep cfgA stListening ⟨"hi bye".data, true, none⟩
    (by decide) (by decide) (by decide) (by decide)).2

/- ## Restart-counter lemmas -/

theorem onresult_restartAttempts (cfg : Config) (st : SState) (r : ResultEvent) :
    (onresult cfg st r).1.restartAttempts = st.restartAttempts := by
  unfold onresult
  split
  · rfl
  · rcases hs0 : st.isTranscribing with _ | _ <;>
      rcases hw : detectWakeWord cfg r.transcript with _ | _ <;>
        rcases hsl : detectSleepWord cfg r.transcript with _ | _ <;>
          simp [enableTranscriptionMode, disableTranscriptionMode, hs0, hw, hsl]

theorem startListening_restartAttempts (cfg : Config) (st : SState) (env : Env) :
    (startListening cfg st env).1.restartAttempts = st.restartAttempts := by
  unfold startListening
  split_ifs <;> rfl

theorem handleNetworkError_attempts_le (cfg : Config) (st : SState)
    (o : Bool) (j : Rat) (h : st.restartAttempts ≤ cfg.maxRestartAttempts) :
    (handleNetworkError cfg st o j).1.restartAttempts ≤ cfg.maxRestartAttempts := by
  unfold handleNetworkError
  split_ifs with h1 h2 h3 h4 <;> simp <;> omega

theorem scheduleRestart_attempts_le (cfg : Config) (st : SState) (j : Rat)
    (h : st.restartAttempts ≤ cfg.maxRestartAttempts) :
    (scheduleRestart cfg st j).1.restartAttempts ≤ cfg.maxRestartAttempts := by
  unfold scheduleRestart
  split_ifs with h1 <;> simp <;> omega

theorem schedTimer_attempts_le (cfg : Config) (st : SState) (env : Env)
    (j : Rat) (h : st.restartAttempts ≤ cfg.maxRestartAttempts) :
    (scheduledRestartTimerFired cfg st env j).1.restartAttempts ≤
      cfg.maxRestartAttempts := by
  unfold scheduledRestartTimerFired
  split_ifs with h1 h2 h3 h4 h5
  · simpa using h
  · exact scheduleRestart_attempts_le cfg _ j (by simpa using h)
  · simpa using h
  · exact scheduleRestart_attempts_le cfg _ j (by simpa using h)
  · simpa using h
  · simpa using h

theorem netTimer_attempts_le (cfg : Config) (st : SState) (env : Env)
    (j : Rat) (h : st.restartAttempts ≤ cfg.maxRestartAttempts) :
    (networkRestartTimerFired cfg st env j).1.restartAttempts ≤
      cfg.maxRestartAttempts := by
  unfold networkRestartTimerFired
  split_ifs with h1 h2 h3
  · simpa using h
  · exact handleNetworkError_attempts_le cfg _ env.onLine j (by simpa using h)
  · rcases hs : startListening cfg {st with restartTimeout := none} env with
      ⟨st1, evs1, oc⟩
    have hst1 : st1.restartAttempts = st.restartAttempts := by
      have h0 := startListening_restartAttempts cfg
        {st with restartTimeout := none} env
      rw [hs] at h0
      simpa using h0
    cases oc
    · simpa [hst1] using h
    · exact handleNetworkError_attempts_le cfg st1 env.onLine j
        (by rw [hst1]; exact h)
  · rcases hs : startListening cfg {st with restartTimeout := none} env with
      ⟨st1, evs1, oc⟩
    have hst1 : st1.restartAttempts = st.restartAttempts := by
      have h0 := startListening_restartAttempts cfg
        {st with restartTimeout := none} env
      rw [hs] at h0
      simpa using h0
    cases oc <;> simpa [hst1] using h

/-- Preservation of the attempt-cap invariant by every operation. -/
theorem step_attempts_le (cfg : Config) (st : SState) (a : Action)
    (h : st.restartAttempts ≤ cfg.maxRestartAttempts) :
    (step cfg st a).1.restartAttempts ≤ cfg.maxRestartAttempts := by
  cases a with
  | result r => rw [step, onresult_restartAttempts]; exact h
  | errorEv code onLine jitter =>
    rw [step]
    unfold onerrorHandler
    split_ifs with h1 h2 h3
    · exact handleNetworkError_attempts_le cfg st onLine jitter h
    · simpa using h
    · simpa using h
    · exact handleNetworkError_attempts_le cfg st onLine jitter h
  | endEv jitter =>
    rw [step]
    unfold onendHandler
    split_ifs with h1
    · exact scheduleRestart_attempts_le cfg st jitter h
    · exact h
  | started => simpa [step, onstartHandler] using Nat.zero_le _
  | callStart env =>
    rw [step]
    simpa [startListening_restartAttempts] using h
  | callStop stopThrows => simpa [step, stopListening] using Nat.zero_le _
  | onlineSignal env =>
    rw [step]
    unfold onlineHandler
    split_ifs with h1
    · simpa [startListening_restartAttempts] using h
    · exact h
  | offlineSignal => simpa [step, offlineHandler, stopListening] using Nat.zero_le _
  | schedTimer env jitter => exact schedTimer_attempts_le cfg st env jitter h
  | netTimer env jitter => exact netTimer_attempts_le cfg st env jitter h
  | enablePublic =>
    rw [step]
    unfold enableTranscriptionMode
    split_ifs <;> simpa using h
  | disablePublic =>
    rw [step]
    unfold disableTranscriptionMode
    split_ifs <;> simpa using h

/- ## Claim theorems: reconnection scheduler -/

/-- `cfgA` with the attempt cap set to zero: the counter starts at the cap. -/
def cfgZeroMax : Config := {cfgA with maxRestartAttempts := 0}

/-- Claim C4, counterexample: with the attempt counter at the cap, the
network-error path settles the mode into `Error` with code `"network"` — not
`"max-attempts-reached"` as the claim states for every restart-scheduling
request (only `scheduleRestart` uses that code). -/
theorem c4_counterexample :
    cfgZeroMax.maxRestartAttempts ≤ stListening.restartAttempts ∧
    handleNetworkError cfgZeroMax stListening true 0 =
      ({stListening with recognition := false, currentState := .error},
        [STTEvent.stateEv .error (some "network-connecting"),
         STTEvent.stateEv .error (some "network")]) ∧
    STTEvent.stateEv .error (some "max-attempts-reached") ∉
      (handleNetworkError cfgZeroMax stListening true 0).2 := by decide

/-- Claim C4 (amended): the restart attempt counter never exceeds
`maxRestartAttempts` (every operation preserves the cap invariant); once the
counter has reached the cap, `scheduleRestart` schedules no timer and settles
the mode into `Error` with code `"max-attempts-reached"`, while the
network-error path at the cap also schedules no timer and does not touch the
counter but settles into `Error` with code `"network"` instead. -/
theorem c4_cap_and_invariant (cfg : Config) (st : SState) (j : Rat)
    (a : Action) :
    (st.restartAttempts ≤ cfg.maxRestartAttempts →
      (step cfg st a).1.restartAttempts ≤ cfg.maxRestartAttempts) ∧
    (cfg.maxRestartAttempts ≤ st.restartAttempts →
      scheduleRestart cfg st j =
        ({st with currentState := .error},
          [STTEvent.stateEv .error (some "max-attempts-reached")])) ∧
    (cfg.maxRestartAttempts ≤ st.restartAttempts → st.currentState ≠ .error →
      (handleNetworkError cfg st true j).1.restartTimeout = st.restartTimeout ∧
      (handleNetworkError cfg st true j).1.restartAttempts = st.restartAttempts ∧
      (handleNetworkError cfg st true j).2 =
        [STTEvent.stateEv .error (some "network-connecting"),
         STTEvent.stateEv .error (some "network")]) := by
  refine ⟨step_attempts_le cfg st a, fun hcap => ?_, fun hcap herr => ?_⟩
  · unfold scheduleRestart
    rw [if_pos hcap]
  · unfold handleNetworkError
    rw [if_neg herr, if_neg (by simp : ¬(true = false)),
      if_neg (by rintro ⟨-, hlt⟩; omega :
        ¬(cfg.autoRestart = true ∧ st.restartAttempts < cfg.maxRestartAttempts))]
    exact ⟨rfl, rfl, rfl⟩

/-- Witness for C4 at concrete inputs: cap `0`, counter `0`. -/
theorem c4_witness :
    scheduleRestart cfgZeroMax stListening 0 =
      ({stListening with currentState := .error},
        [STTEvent.stateEv .error (some "max-attempts-reached")]) ∧
    (handleNetworkError cfgZeroMax stListening true 0).2 =
      [STTEvent.stateEv .error (some "network-connecting"),
       STTEvent.stateEv .error (some "network")] :=
  ⟨(c4_cap_and_invariant cfgZeroMax stListening 0 (.callStop false)).2.1
      (by decide),
   ((c4_cap_and_invariant cfgZeroMax stListening 0 (.callStop false)).2.2
      (by decide) (by decide)).2.2⟩

/-- Claim C5 (confirmed): after `stopListening()`, from any prior state, the
mode is `Stopped`, no restart timer is pending, the attempt counter is zero
and the transcription sub-state is false; the result does not depend on
whether the adapter teardown threw (the error is swallowed), and the
embedded function is total, so the call never throws. -/
theorem c5_stopListening (st : SState) (stopThrows : Bool) :
    (stopListening st stopThrows).1.currentState = .stopped ∧
    (stopListening st stopThrows).1.restartTimeout = none ∧
    (stopListening st stopThrows).1.restartAttempts = 0 ∧
    (stopListening st stopThrows).1.isTranscribing = false ∧
    stopListening st stopThrows = stopListening st false :=
  ⟨rfl, rfl, rfl, rfl, rfl⟩

/-- Claim C6, counterexample: when the environment is offline at the moment
the failure is handled, `handleNetworkError` returns right after setting
`Error("network-offline")`: it registers NO one-shot online listener (the
count stays `0`, the registering branch is unreachable) — the claim says one
is registered. -/
theorem c6_counterexample :
    handleNetworkError cfgA stListening false 0 =
      ({stListening with currentState := .error},
        [STTEvent.stateEv .error (some "network-connecting"),
         STTEvent.stateEv .error (some "network-offline")]) ∧
    (handleNetworkError cfgA stListening false 0).1.oneShotOnline = 0 := by
  decide

/-- Claim C6 (amended): when the environment is offline at failure time the
scheduler starts no backoff timer and does not consume an attempt slot; but
it registers NO one-shot listener — it only settles into
`Error("network-offline")` — and the restart on connectivity return happens
through the PERSISTENT `online` listener installed at construction, which
calls `startListening` whenever auto-restart is on and the instance is not
stopped. -/
theorem c6_offline_no_listener (cfg : Config) (st : SState) (j : Rat)
    (env : Env) (h : st.currentState ≠ .error) :
    handleNetworkError cfg st false j =
      ({st with currentState := .error},
        [STTEvent.stateEv .error (some "network-connecting"),
         STTEvent.stateEv .error (some "network-offline")]) ∧
    (cfg.autoRestart = true → st.currentState ≠ .stopped →
      onlineHandler cfg st env =
        ((startListening cfg st env).1, (startListening cfg st env).2.1)) := by
  constructor
  · unfold handleNetworkError
    rw [if_neg h, if_pos rfl]
  · intro ha hs
    unfold onlineHandler
    rw [if_pos ⟨ha, hs⟩]

/-- Witness for C6 at concrete inputs. -/
theorem c6_witness :
    handleNetworkError cfgA stListening false 0 =
      ({stListening with currentState := .error},
        [STTEvent.stateEv .error (some "network-connecting"),
         STTEvent.stateEv .error (some "network-offline")]) :=
  (c6_offline_no_listener cfgA stListening 0
    ⟨true, true, true, false⟩ (by decide)).1

/- ## Claim theorems: startListening and mode edges -/

/-- An environment that reports no network connectivity. -/
def envOffline : Env :=
  { onLine := false, micGranted := true, apiAvailable := true,
    adapterStartThrows := false }

/-- Claim C7, counterexample: with the environment offline, `startListening`
sets `Error("offline")` and RESOLVES (plain `return`, no throw), leaving the
instance in `Error` while the returned promise fulfills — the claim says it
rejects. -/
theorem c7_counterexample :
    startListening cfgA initialState envOffline =
      ({initialState with currentState := .error},
        [STTEvent.stateEv .error (some "offline")], Outcome.resolved) := by
  decide

/-- Claim C7 (amended): when `startListening` fails to begin listening it
always transitions into `Error` and emits an `Error` state event, but only
the adapter-initialization and adapter-start failures reject the promise;
the offline and microphone-denied failures RESOLVE it, so those two paths do
leave the instance in `Error` with a fulfilled promise. -/
theorem c7_start_failure_paths (cfg : Config) (st : SState) (env : Env)
    (h1 : st.currentState ≠ .listening) (h2 : st.currentState ≠ .transcribing) :
    (env.onLine = false →
      startListening cfg st env =
        ({st with currentState := .error},
          [STTEvent.stateEv .error (some "offline")], Outcome.resolved)) ∧
    (env.onLine = true → env.micGranted = false →
      startListening cfg st env =
        ({st with currentState := .error},
          [STTEvent.stateEv .error (some "microphone-denied")],
          Outcome.resolved)) ∧
    (env.onLine = true → env.micGranted = true → st.recognition = false →
      env.apiAvailable = false →
      startListening cfg st env =
        ({st with currentState := .error},
          [STTEvent.stateEv .error none], Outcome.rejected)) ∧
    (env.onLine = true → env.micGranted = true →
      (st.recognition = true ∨ env.apiAvailable = true) →
      env.adapterStartThrows = true →
      startListening cfg st env =
        ({st with recognition := true, currentState := .error},
          [STTEvent.stateEv .error (some "permission-denied")],
          Outcome.rejected)) ∧
    (env.onLine = true → env.micGranted = true →
      (st.recognition = true ∨ env.apiAvailable = true) →
      env.adapterStartThrows = false →
      startListening cfg st env =
        ({st with recognition := true, currentState := .listening},
          [STTEvent.stateEv .listening none], Outcome.resolved)) := by
  have hm : ¬(st.currentState = .listening ∨ st.currentState = .transcribing) := by
    rintro (h | h)
    · exact h1 h
    · exact h2 h
  refine ⟨fun ho => ?_, fun ho hmic => ?_, fun ho hmic hrec hapi => ?_,
    fun ho hmic hor hth => ?_, fun ho hmic hor hth => ?_⟩
  · unfold startListening
    simp [hm, ho]
  · unfold startListening
    simp [hm, ho, hmic]
  · unfold startListening
    simp [hm, ho, hmic, hrec, hapi]
  · have hna : ¬(st.recognition = false ∧ env.apiAvailable = false) := by
      rcases hor with h | h <;> simp [h]
    unfold startListening
    simp [hm, ho, hmic, hna, hth]
  · have hna : ¬(st.recognition = false ∧ env.apiAvailable = false) := by
      rcases hor with h | h <;> simp [h]
    unfold startListening
    simp [hm, ho, hmic, hna, hth]

/-- Witness for C7 at the concrete offline input. -/
theorem c7_witness :
    startListening cfgA initialState envOffline =
      ({initialState with currentState := .error},
        [STTEvent.stateEv .error (some "offline")], Outcome.resolved) :=
  (c7_start_failure_paths cfgA initialState envOffline
    (by decide) (by decide)).1 rfl

/-- Claim C8, counterexample: the public `enableTranscriptionModePublic()`
(and the underlying `enableTranscriptionMode`) checks only the transcription
sub-state, never the current mode, so `Transcribing` IS entered directly
from `Idle` on a freshly constructed instance. -/
theorem c8_counterexample :
    initialState.currentState = .idle ∧
    (step cfgA initialState .enablePublic).1.currentState = .transcribing ∧
    (step cfgA initialState .enablePublic).2 =
      [STTEvent.stateEv .transcribing none] := by decide

/-- Claim C8 (amended): entry into `Transcribing` is guarded only by the
transcription sub-state: when it is already set, enabling is a no-op with no
state event (so duplicate wake matches while transcribing are no-ops, as the
claim says); when it is clear, enabling transitions to `Transcribing` from
ANY current mode — including `Idle`, `Stopped` and `Error` — via either a
wake match or the public method. -/
theorem c8_enable_guard (cfg : Config) (st : SState) :
    (st.isTranscribing = true → step cfg st .enablePublic = (st, [])) ∧
    (st.isTranscribing = false →
      step cfg st .enablePublic =
        ({st with isTranscribing := true, currentState := .transcribing},
          [STTEvent.stateEv .transcribing none])) := by
  constructor <;> intro h <;> simp [step, enableTranscriptionMode, h]

/-- Witness for C8 at a concrete input: enabling on the fresh instance. -/
theorem c8_witness :
    step cfgA initialState .enablePublic =
      ({initialState with
          isTranscribing := true
          currentState := .transcribing},
        [STTEvent.stateEv .transcribing none]) :=
  (c8_enable_guard cfgA initialState).2 rfl

/-- An instance already in `Error` mode. -/
def stError : SState := {stListening with currentState := .error}

/-- Claim C10 (confirmed): when the mode is already `Error`,
`handleNetworkError` returns immediately: no event is emitted and the state
— mode, attempt counter, pending-timer handle and all — is unchanged, so
repeated network-class errors while in `Error` coalesce into the first. -/
theorem c10_error_coalesce (cfg : Config) (st : SState) (o : Bool) (j : Rat)
    (h : st.currentState = .error) :
    handleNetworkError cfg st o j = (st, []) := by
  unfold handleNetworkError
  rw [if_pos h]

/-- Witness for C10 at a concrete input. -/
theorem c10_witness : handleNetworkError cfgA stError true 0 = (stError, []) :=
  c10_error_coalesce cfgA stError true 0 rfl

end WakeSleep
